import Mathlib

/-!
Shallow embedding of the repository ElasticHelper (src/elastic_helper.py),
a thin helper around an Elasticsearch client: bulk document generation and
insertion, index creation, interactive index deletion, and existence checks.

Rows of a pandas DataFrame are modelled as ordered association lists from
field name to a scalar Value; a DataFrame is a list of such rows.  Calls
into the third-party client are modelled explicitly: the connection call by
the record of arguments passed to it, the index management calls by a small
engine state (the set of existing index names) with the standard client
semantics (delete of a missing index raises a not-found error, create of an
existing index raises an already-exists error).  Python exceptions are
modelled with Except.
-/

/-- Scalar field values appearing in a row (the model covers integer and
string cells, the shapes exercised by the repository). -/
inductive Value where
  | int (n : Int)
  | str (s : String)
  deriving DecidableEq, Repr

/-- Python string interpolation of a scalar value, as in the f-string
producing the document id. -/
def Value.toPyStr : Value → String
  | Value.int n => toString n
  | Value.str s => s

/-- One DataFrame row: an ordered mapping from field name to value
(a pandas Series, as produced by iterrows). -/
abbrev Row := List (String × Value)

/-- Series item lookup: the value of field k when present. -/
def Row.get? (r : Row) (k : String) : Option Value :=
  (r.find? (fun p => p.fst == k)).map (fun p => p.snd)

/-- Python errors the embedded calls can raise. -/
inductive PyError where
  | keyError (k : String)
  | notFound (index : String)
  | alreadyExists (index : String)
  deriving DecidableEq, Repr

/-- One action document yielded by the generator, in the bulk wire shape
produced at src/elastic_helper.py lines 38-42. -/
structure Document where
  _index : String
  _id : String
  _source : Row
  deriving DecidableEq, Repr

/-- Conversion of one row to a document, following the yield body: _index is
the index name, _id is the f-string of the id column cell (a KeyError when
the column is absent, per Series item access), _source is the full row
mapping (Series.to_dict). -/
def rowToDoc (index_name : String) (doc_id : String) (row : Row) :
    Except PyError Document :=
  match Row.get? row doc_id with
  | some v => Except.ok (Document.mk index_name (Value.toPyStr v) row)
  | none => Except.error (PyError.keyError doc_id)

/-- A suspended generator invocation: calling a Python generator function
runs none of its body and merely captures the arguments. -/
structure DocGen where
  index_name : String
  df : List Row
  doc_id : String
  deriving DecidableEq, Repr

/-- The method _doc_generator (src/elastic_helper.py lines 25-42): invoking
it builds the suspended generator; no row is touched at invocation time. -/
def ElasticHelper.doc_generator (index_name : String) (df : List Row)
    (doc_id : String) : DocGen :=
  DocGen.mk index_name df doc_id

/-- One step of consuming the generator: the first row is converted (which
may raise) and the rest stays suspended; an exhausted generator yields
nothing. -/
def DocGen.next (g : DocGen) : Except PyError (Option (Document × DocGen)) :=
  match g.df with
  | [] => Except.ok none
  | row :: rest =>
    match rowToDoc g.index_name g.doc_id row with
    | Except.error e => Except.error e
    | Except.ok d =>
      Except.ok (some (d, DocGen.mk g.index_name rest g.doc_id))

/-- Full consumption of the generator body over the remaining rows:
documents in row order, stopping at the first raising row. -/
def runGen (index_name : String) (doc_id : String) :
    List Row → Except PyError (List Document)
  | [] => Except.ok []
  | row :: rest =>
    match rowToDoc index_name doc_id row with
    | Except.error e => Except.error e
    | Except.ok d =>
      match runGen index_name doc_id rest with
      | Except.error e => Except.error e
      | Except.ok ds => Except.ok (d :: ds)

/-- Full consumption of a suspended generator. -/
def DocGen.run (g : DocGen) : Except PyError (List Document) :=
  runGen g.index_name g.doc_id g.df

/-- One element of the parallel_bulk response sequence: the client yields a
pair of a success flag and an item dict; the method reads only the nested
status code response[1]["index"]["status"]. -/
structure BulkResponse where
  success : Bool
  status : Nat
  deriving DecidableEq, Repr

/-- Observable outcome of the bulk_insert loop: how many response elements
the for-loop consumed before the method returned, and the responses printed,
in order. -/
structure BulkInsertResult where
  consumed : Nat
  printed : List BulkResponse
  deriving DecidableEq, Repr

/-- The for-loop of bulk_insert (src/elastic_helper.py lines 53-55): every
response is consumed; a response is printed exactly when its status code
differs from 201; nothing is raised and no early exit exists. -/
def bulkLoop : List BulkResponse → BulkInsertResult
  | [] => BulkInsertResult.mk 0 []
  | r :: rest =>
    let res := bulkLoop rest
    BulkInsertResult.mk (res.consumed + 1)
      (if r.status != 201 then r :: res.printed else res.printed)

/-- The method bulk_insert (src/elastic_helper.py lines 44-55), given the
response sequence the parallel_bulk call yields for the generated documents.
Its Lean type (a total function into BulkInsertResult, not Except) records
that the loop body raises nothing. -/
def ElasticHelper.bulk_insert (responses : List BulkResponse) :
    BulkInsertResult :=
  bulkLoop responses

/-- Values of the three environment variables read at module import
(src/elastic_helper.py lines 7-10); getenv yields none when unset. -/
structure Env where
  ELASTIC_PASSWORD : Option String
  ELASTIC_USERNAME : Option String
  ELASTIC_CERT : Option String
  deriving DecidableEq, Repr

/-- Arguments passed to the Elasticsearch client constructor. -/
structure EsConnectionConfig where
  url : String
  ca_certs : Option String
  basic_auth_user : String
  basic_auth_password : Option String
  verify_certs : Bool
  deriving DecidableEq, Repr

/-- The constructor of ElasticHelper (src/elastic_helper.py lines 17-23):
the client is opened on the fixed URL with the certificate path and password
from the environment, the literal user name "elastic", and certificate
verification turned off. -/
def ElasticHelper.init (env : Env) : EsConnectionConfig :=
  EsConnectionConfig.mk "https://localhost:9200" env.ELASTIC_CERT
    "elastic" env.ELASTIC_PASSWORD false

/-- Engine state visible to the index management calls: the names of the
existing indices. -/
structure EsState where
  indices : List String
  deriving DecidableEq, Repr

/-- Client primitive indices.delete: removes the index, raising the
client not-found error when no such index exists. -/
def EsState.indicesDelete (s : EsState) (name : String) :
    Except PyError EsState :=
  if name ∈ s.indices then Except.ok (EsState.mk (s.indices.erase name))
  else Except.error (PyError.notFound name)

/-- Client primitive indices.create: adds the index, raising the client
already-exists error when the name is taken. -/
def EsState.indicesCreate (s : EsState) (name : String) :
    Except PyError EsState :=
  if name ∈ s.indices then Except.error (PyError.alreadyExists name)
  else Except.ok (EsState.mk (name :: s.indices))

/-- Settings block of the create request body. -/
structure IndexSettings where
  number_of_shards : Nat
  number_of_replicas : Nat
  deriving DecidableEq, Repr

/-- Body of a create request: settings plus the caller-supplied mappings,
passed through unchanged (src/elastic_helper.py lines 64-70). -/
structure CreateBody (α : Type) where
  settings : IndexSettings
  mappings : α
  deriving DecidableEq, Repr

/-- One create request issued to the client. -/
structure CreateRequest (α : Type) where
  index : String
  body : CreateBody α
  deriving DecidableEq, Repr

/-- The method create_index (src/elastic_helper.py lines 57-71): the list of
create requests its straight-line body issues, built from the fixed settings
and the caller-supplied mappings. -/
def ElasticHelper.create_index (index_name : String) {α : Type}
    (mappings : α) : List (CreateRequest α) :=
  [CreateRequest.mk index_name
    (CreateBody.mk (IndexSettings.mk 1 1) mappings)]

/-- The method create_index run against an engine state: the single client
call is made with no surrounding handler, so a client error propagates. -/
def ElasticHelper.create_index_run (index_name : String) {α : Type}
    (mappings : α) (s : EsState) :
    Except PyError (EsState × List (CreateRequest α)) :=
  match EsState.indicesCreate s index_name with
  | Except.error e => Except.error e
  | Except.ok s2 =>
    Except.ok (s2, ElasticHelper.create_index index_name mappings)

/-- Python str.lower over the characters of the string (the answers the
confirmation gate compares against are ASCII, where per-character lowering
agrees with Python). -/
def pyLower (s : String) : String :=
  String.mk (s.data.map Char.toLower)

/-- Straight-line outcome of delete_index as determined by the source alone:
the delete requests it issues and the boolean it returns when every issued
client call returns. -/
structure DeletePlan where
  requests : List String
  returns : Bool
  deriving DecidableEq, Repr

/-- The method delete_index (src/elastic_helper.py lines 73-87), request
level: on operator answer whose lowercase form is "n" it issues no request
and returns false; on any other answer it issues the one delete request and
returns true. -/
def ElasticHelper.delete_index (answer : String) (index_name : String) :
    DeletePlan :=
  if pyLower answer == "n" then DeletePlan.mk [] false
  else DeletePlan.mk [index_name] true

/-- The method delete_index run against an engine state: no existence check
precedes the client call and no handler surrounds it, so the client
not-found error propagates to the caller. -/
def ElasticHelper.delete_index_run (answer : String) (index_name : String)
    (s : EsState) : Except PyError (Bool × EsState) :=
  if pyLower answer == "n" then Except.ok (false, s)
  else
    match EsState.indicesDelete s index_name with
    | Except.error e => Except.error e
    | Except.ok s2 => Except.ok (true, s2)

/-- The method index_exists (src/elastic_helper.py lines 89-98). -/
def ElasticHelper.index_exists (index_name : String) (s : EsState) : Bool :=
  s.indices.contains index_name

/-- Example dataset from the spec scenario: two rows with id column SNo. -/
def dfEx : List Row :=
  [[("SNo", Value.int 1), ("name", Value.str "a")],
   [("SNo", Value.int 2), ("name", Value.str "b")]]

/-- Example dataset for the missing-column case: one row without SNo. -/
def dfNoId : List Row :=
  [[("name", Value.str "a")]]

/-- Reading of claim C2 over the constructor arguments: the connection is
made to the fixed local address, is TLS-verified via the CA certificate path
from the environment, and authenticates with the username and password from
the environment. -/
def connectClaimC2 (env : Env) : Prop :=
  (ElasticHelper.init env).url = "https://localhost:9200" ∧
  (ElasticHelper.init env).verify_certs = true ∧
  (ElasticHelper.init env).ca_certs = env.ELASTIC_CERT ∧
  (ElasticHelper.init env).basic_auth_password = env.ELASTIC_PASSWORD ∧
  ∀ u, env.ELASTIC_USERNAME = some u →
    (ElasticHelper.init env).basic_auth_user = u

theorem bulkLoop_consumed (rs : List BulkResponse) :
    (bulkLoop rs).consumed = rs.length := by
  induction rs with
  | nil => rfl
  | cons r rest ih =>
    simp only [bulkLoop, List.length_cons]
    rw [ih]

theorem bulkLoop_printed (rs : List BulkResponse) :
    (bulkLoop rs).printed = rs.filter (fun r => r.status != 201) := by
  induction rs with
  | nil => rfl
  | cons r rest ih =>
    simp only [bulkLoop, List.filter_cons]
    split <;> simp_all

theorem runGen_ok_of_isSome (index_name doc_id : String) (df : List Row)
    (h : ∀ r ∈ df, (Row.get? r doc_id).isSome) :
    ∃ docs, runGen index_name doc_id df = Except.ok docs ∧
      List.Forall₂ (fun (r : Row) (d : Document) =>
        d._index = index_name ∧
        (∃ v, Row.get? r doc_id = some v ∧ d._id = Value.toPyStr v) ∧
        d._source = r) df docs := by
  induction df with
  | nil => exact ⟨[], rfl, List.Forall₂.nil⟩
  | cons row rest ih =>
    have hrow := h row (List.mem_cons_self row rest)
    obtain ⟨v, hv⟩ := Option.isSome_iff_exists.mp hrow
    obtain ⟨docs, hrun, hfa⟩ :=
      ih (fun r hr => h r (List.mem_cons_of_mem row hr))
    refine ⟨Document.mk index_name (Value.toPyStr v) row :: docs, ?_, ?_⟩
    · simp [runGen, rowToDoc, hv, hrun]
    · exact List.Forall₂.cons ⟨rfl, ⟨v, hv, rfl⟩, rfl⟩ hfa

/-- C1: for every response sequence of BulkInsert, a non-success status
(anything other than 201 created) is only reported via the print log and is
never raised to the caller (bulk_insert is a total function into
BulkInsertResult, not Except), and the loop consumes the whole sequence, so
processing continues after such a failure. -/
theorem bulk_insert_failure_logged_not_raised (rs : List BulkResponse) :
    (∀ r ∈ rs, r.status ≠ 201 →
      r ∈ (ElasticHelper.bulk_insert rs).printed) ∧
    (ElasticHelper.bulk_insert rs).consumed = rs.length := by
  constructor
  · intro r hr hs
    rw [ElasticHelper.bulk_insert, bulkLoop_printed]
    exact List.mem_filter.mpr ⟨hr, by simpa using hs⟩
  · exact bulkLoop_consumed rs

theorem bulk_insert_failure_logged_not_raised_witness :
    BulkResponse.mk false 400 ∈
      (ElasticHelper.bulk_insert
        [BulkResponse.mk false 400, BulkResponse.mk true 201]).printed ∧
    (ElasticHelper.bulk_insert
        [BulkResponse.mk false 400, BulkResponse.mk true 201]).consumed = 2 :=
  ⟨(bulk_insert_failure_logged_not_raised
      [BulkResponse.mk false 400, BulkResponse.mk true 201]).1
      (BulkResponse.mk false 400) (by decide) (by decide),
   (bulk_insert_failure_logged_not_raised
      [BulkResponse.mk false 400, BulkResponse.mk true 201]).2⟩

/-- C2 counterexample: the claim fails at a concrete environment, because
the constructor passes verify_certs = false (the connection is not
TLS-verified) and the hardcoded user name "elastic" rather than the
environment user name. -/
theorem connect_claim_false :
    ¬ connectClaimC2 (Env.mk (some "pw") (some "alice") (some "ca.crt")) :=
  fun h => Bool.false_ne_true h.2.1

/-- C2 amended: at construction the client is opened on the fixed address
https://localhost:9200 with the CA certificate path and the password taken
from the environment, but certificate verification is disabled and the user
name is the fixed literal "elastic"; the environment user name is never
used. -/
theorem connect_amended (p u c : Option String) :
    ElasticHelper.init (Env.mk p u c) =
      EsConnectionConfig.mk "https://localhost:9200" c "elastic" p false :=
  rfl

/-- C3: for every dataset, collection name and id field present in every
row, consuming the generator yields exactly one document per row, in
dataset order (Forall₂ relates rows and documents positionwise), with index
name c and id the stringified f-value of the source row. -/
theorem doc_generator_one_doc_per_row (c : String) (df : List Row)
    (f : String) (h : ∀ r ∈ df, (Row.get? r f).isSome) :
    ∃ docs, DocGen.run (ElasticHelper.doc_generator c df f) =
        Except.ok docs ∧
      docs.length = df.length ∧
      List.Forall₂ (fun (r : Row) (d : Document) =>
        d._index = c ∧ ∃ v, Row.get? r f = some v ∧
          d._id = Value.toPyStr v) df docs := by
  obtain ⟨docs, hrun, hfa⟩ := runGen_ok_of_isSome c f df h
  exact ⟨docs, hrun, hfa.length_eq.symm,
    hfa.imp (fun a b hab => ⟨hab.1, hab.2.1⟩)⟩

theorem doc_generator_one_doc_per_row_witness :
    ∃ docs, DocGen.run (ElasticHelper.doc_generator "test" dfEx "SNo") =
        Except.ok docs ∧
      docs.length = dfEx.length ∧
      List.Forall₂ (fun (r : Row) (d : Document) =>
        d._index = "test" ∧ ∃ v, Row.get? r "SNo" = some v ∧
          d._id = Value.toPyStr v) dfEx docs :=
  doc_generator_one_doc_per_row "test" dfEx "SNo" (by decide)

/-- C4: for every row of the dataset, the body of the produced document is
the full source row mapping, no field excluded, so the body reconstructs
the original row. -/
theorem doc_body_roundtrip (c : String) (df : List Row) (f : String)
    (h : ∀ r ∈ df, (Row.get? r f).isSome) :
    ∃ docs, DocGen.run (ElasticHelper.doc_generator c df f) =
        Except.ok docs ∧
      List.Forall₂ (fun (r : Row) (d : Document) => d._source = r) df docs := by
  obtain ⟨docs, hrun, hfa⟩ := runGen_ok_of_isSome c f df h
  exact ⟨docs, hrun, hfa.imp (fun a b hab => hab.2.2)⟩

theorem doc_body_roundtrip_witness :
    ∃ docs, DocGen.run (ElasticHelper.doc_generator "demo" dfEx "SNo") =
        Except.ok docs ∧
      List.Forall₂ (fun (r : Row) (d : Document) => d._source = r)
        dfEx docs :=
  doc_body_roundtrip "demo" dfEx "SNo" (by decide)

/-- C5: for every collection name, delete_index issues no delete request
and returns false when the operator answer lowercases to the literal n;
for any other answer it issues the one delete request and returns true. -/
theorem delete_index_confirmation_gate (answer index_name : String) :
    (pyLower answer = "n" →
      ElasticHelper.delete_index answer index_name =
        DeletePlan.mk [] false) ∧
    (pyLower answer ≠ "n" →
      ElasticHelper.delete_index answer index_name =
        DeletePlan.mk [index_name] true) := by
  constructor <;> intro h <;> simp [ElasticHelper.delete_index, h]

theorem delete_index_confirmation_gate_witness :
    ElasticHelper.delete_index "N" "idx" = DeletePlan.mk [] false ∧
    ElasticHelper.delete_index "yes" "idx" =
      DeletePlan.mk ["idx"] true :=
  ⟨(delete_index_confirmation_gate "N" "idx").1 (by decide),
   (delete_index_confirmation_gate "yes" "idx").2 (by decide)⟩

/-- C6: for every name and schema, create_index issues exactly the one
create request with body settings number_of_shards 1, number_of_replicas 1
and the caller-supplied mappings, and when the index already exists the
client error propagates to the caller. -/
theorem create_index_request_shape {α : Type} (index_name : String)
    (mappings : α) (s : EsState) :
    ElasticHelper.create_index index_name mappings =
      [CreateRequest.mk index_name
        (CreateBody.mk (IndexSettings.mk 1 1) mappings)] ∧
    (index_name ∈ s.indices →
      ElasticHelper.create_index_run index_name mappings s =
        Except.error (PyError.alreadyExists index_name)) := by
  refine ⟨rfl, fun h => ?_⟩
  simp [ElasticHelper.create_index_run, EsState.indicesCreate, h]

theorem create_index_request_shape_witness :
    ElasticHelper.create_index "idx2" (0 : Nat) =
      [CreateRequest.mk "idx2"
        (CreateBody.mk (IndexSettings.mk 1 1) (0 : Nat))] ∧
    ElasticHelper.create_index_run "idx2" (0 : Nat)
        (EsState.mk ["idx2"]) =
      Except.error (PyError.alreadyExists "idx2") :=
  ⟨(create_index_request_shape "idx2" (0 : Nat) (EsState.mk ["idx2"])).1,
   (create_index_request_shape "idx2" (0 : Nat) (EsState.mk ["idx2"])).2
     (List.mem_singleton.mpr rfl)⟩

/-- C7: for every response sequence, the bulk_insert loop has consumed
every element of the sequence when the method returns: the consumed count
of the returned outcome equals the full sequence length. -/
theorem bulk_insert_returns_after_all_consumed (rs : List BulkResponse) :
    (ElasticHelper.bulk_insert rs).consumed = rs.length :=
  bulkLoop_consumed rs

/-- C8: for every index name absent from the engine and every confirming
operator answer, delete_index_run propagates the client not-found error to
the caller instead of returning a boolean: no existence check precedes the
delete request. -/
theorem delete_index_notfound_propagates (answer index_name : String)
    (s : EsState) (hconf : pyLower answer ≠ "n")
    (hmiss : index_name ∉ s.indices) :
    ElasticHelper.delete_index_run answer index_name s =
      Except.error (PyError.notFound index_name) := by
  simp [ElasticHelper.delete_index_run, hconf, EsState.indicesDelete, hmiss]

theorem delete_index_notfound_propagates_witness :
    ElasticHelper.delete_index_run "y" "ghost" (EsState.mk []) =
      Except.error (PyError.notFound "ghost") :=
  delete_index_notfound_propagates "y" "ghost" (EsState.mk [])
    (by decide) (by simp)

/-- C9: the reporting condition of bulk_insert is status different from
201, not success of the operation: the print log is exactly the responses
whose status is not 201, and a successful response with status 200 is
reported as if it were a failure. -/
theorem bulk_insert_reports_on_status_not_201 (rs : List BulkResponse) :
    (ElasticHelper.bulk_insert rs).printed =
      rs.filter (fun r => r.status != 201) ∧
    ∀ r ∈ rs, r.success = true → r.status = 200 →
      r ∈ (ElasticHelper.bulk_insert rs).printed := by
  refine ⟨bulkLoop_printed rs, fun r hr _ hs => ?_⟩
  rw [ElasticHelper.bulk_insert, bulkLoop_printed]
  exact List.mem_filter.mpr ⟨hr, by simp [hs]⟩

theorem bulk_insert_reports_on_status_not_201_witness :
    BulkResponse.mk true 200 ∈
      (ElasticHelper.bulk_insert [BulkResponse.mk true 200]).printed :=
  (bulk_insert_reports_on_status_not_201 [BulkResponse.mk true 200]).2
    (BulkResponse.mk true 200) (List.mem_singleton.mpr rfl) rfl rfl

/-- C10: for every dataset and id field absent from its rows, invoking the
generator raises nothing and touches no row (it is pure argument capture),
and the missing-field KeyError is raised at the first consumption step. -/
theorem doc_generator_lazy_keyerror (c : String) (df : List Row)
    (f : String) (hmiss : ∀ r ∈ df, Row.get? r f = none) (hne : df ≠ []) :
    ElasticHelper.doc_generator c df f = DocGen.mk c df f ∧
    DocGen.next (ElasticHelper.doc_generator c df f) =
      Except.error (PyError.keyError f) := by
  refine ⟨rfl, ?_⟩
  match df, hne with
  | row :: rest, _ =>
    have h0 := hmiss row (List.mem_cons_self row rest)
    simp [ElasticHelper.doc_generator, DocGen.next, rowToDoc, h0]

theorem doc_generator_lazy_keyerror_witness :
    ElasticHelper.doc_generator "test" dfNoId "SNo" =
      DocGen.mk "test" dfNoId "SNo" ∧
    DocGen.next (ElasticHelper.doc_generator "test" dfNoId "SNo") =
      Except.error (PyError.keyError "SNo") :=
  doc_generator_lazy_keyerror "test" dfNoId "SNo" (by decide) (by decide)
